import Mathlib

set_option maxRecDepth 8192

/-!
Verification development for the `mastra-azure-aisearch-demo` repository.

The development gives a shallow embedding of the retrieval tools in
`src/mastra/tools/vector-store-tools.ts`, of the ingestion script
`src/mastra/scripts/populate-knowledge-base.ts`, and (from the spec) of the
semantic-recall window configured in
`src/mastra/agents/knowledge-memory-agent.ts`.

External services (the embedding provider and the vector index service) are
modelled by a `World` record of response functions: each field gives, for each
request, either a value (`Except.ok`) or a thrown error message
(`Except.error`).  Each tool is embedded as a pure function from a `World` and
its parsed input to the result it returns together with the chronological list
of external calls it issued (the trace), so that claims about "no I/O before
rejection" are statable.
-/

/-- JavaScript truthiness of an environment variable (`undefined` and the empty
string are falsy): models checks such as `!process.env.OPENAI_API_KEY`. -/
def jsTruthy : Option String → Bool
  | none => false
  | some s => s ≠ ""

/-- JavaScript `a || b` on a possibly-undefined string (`undefined`, `null` and
`""` all select the default), as in `r.metadata?.title || 'Untitled'`. -/
def jsOr (o : Option String) (d : String) : String :=
  match o with
  | none => d
  | some s => if s = "" then d else s

/-- JavaScript `a || b` on a present string (only `""` selects the default),
as in `error.message || 'Error while searching documents'`. -/
def jsNonEmptyOr (s d : String) : String :=
  if s = "" then d else s

/-- JavaScript `s.includes(pat)`: substring containment, as in
`error?.message?.includes('already exists')`. -/
def jsIncludes (s pat : String) : Bool :=
  decide (pat.data <:+: s.data)

/-- JavaScript `s.substring(0, n)`: the first `n` units of `s`. -/
def takeFirst (n : Nat) (s : String) : String :=
  ⟨s.data.take n⟩

/-- JavaScript `x.toFixed(4)`: decimal rendering of a score with four digits
after the point (scores are modelled as rationals). -/
def toFixed4 (q : ℚ) : String :=
  let scaled : ℤ := round (q * 10000)
  let sign := if scaled < 0 then "-" else ""
  let n := scaled.natAbs
  let fs := toString (n % 10000)
  sign ++ toString (n / 10000) ++ "." ++ String.mk (List.replicate (4 - fs.length) '0') ++ fs

instance {ε α : Type} [DecidableEq ε] [DecidableEq α] : DecidableEq (Except ε α)
  | .ok a, .ok b =>
    if h : a = b then .isTrue (by rw [h]) else .isFalse (by intro hc; cases hc; exact h rfl)
  | .ok _, .error _ => .isFalse (by intro hc; cases hc)
  | .error _, .ok _ => .isFalse (by intro hc; cases hc)
  | .error a, .error b =>
    if h : a = b then .isTrue (by rw [h]) else .isFalse (by intro hc; cases hc; exact h rfl)

/-- The metadata fields of a query hit that the tools read (`r.metadata?.title`,
`r.metadata?.category`); either may be absent; the record also stands for the
raw metadata blob that `searchDocuments` passes through unchanged. -/
structure MetaView where
  title : Option String
  category : Option String
deriving DecidableEq

/-- One hit returned by `vectorStore.query`: an optional score (`r.score`), the
optional stored document text (`r.document`) and the optional metadata blob
(`r.metadata`). -/
structure QueryHit where
  score : Option ℚ
  document : Option String
  metadata : Option MetaView
deriving DecidableEq

/-- The metadata payload upserted for a knowledge document
(`{title, content, category, tags, timestamp}`). -/
structure DocMetadata where
  title : String
  content : String
  category : String
  tags : List String
  timestamp : String
deriving DecidableEq

/-- The statistics returned by `vectorStore.describeIndex`. -/
structure IndexStats where
  count : Nat
  dimension : Nat
  metric : String
deriving DecidableEq

/-- One external request issued by a tool, recorded in order in the trace. -/
inductive ExtCall where
  | embedReq (text : String)
  | vecQuery (indexName : String) (queryVector : List ℚ) (topK : Int)
  | vecUpsert (indexName : String) (vectors : List (List ℚ)) (metadata : List DocMetadata)
  | vecList
  | vecDescribe (indexName : String)
deriving DecidableEq

/-- The behaviour of the environment and the external services: the configured
OpenAI credential and, for each request, the response or the thrown error. -/
structure World where
  openaiApiKey : Option String
  embedFn : String → Except String (List ℚ)
  queryFn : String → List ℚ → Int → Except String (List QueryHit)
  upsertFn : String → List (List ℚ) → List DocMetadata → Except String (List String)
  listIndexesFn : Except String (List String)
  describeIndexFn : String → Except String IndexStats
  nowIso : String

/-- The structured result every tool returns: an explicit success flag with
either a payload (`success`) or an error string (`failure`). -/
inductive ToolOutcome (α : Type) where
  | success (payload : α)
  | failure (error : String)
deriving DecidableEq

/-- `try { body } catch (error) { return handler(error) }`: the observable
behaviour of a tool's `execute`, where `Except.error` stands for an exception
escaping the boundary.  The handler catches every exception. -/
def tryCatch {α : Type} (body : Except String α) (handler : String → α) : Except String α :=
  match body with
  | .ok a => .ok a
  | .error e => .ok (handler e)

theorem tryCatch_ok {α : Type} (a : α) (handler : String → α) :
    tryCatch (.ok a) handler = .ok a := rfl

theorem tryCatch_error {α : Type} (e : String) (handler : String → α) :
    tryCatch (.error e) handler = .ok (handler e) := rfl

/-- `.map((r, i) => f(r, i))` starting at position `k`: positional mapping over
the hit list. -/
def mapIdxFrom {α β : Type} (f : Nat → α → β) : Nat → List α → List β
  | _, [] => []
  | k, a :: as => f k a :: mapIdxFrom f (k + 1) as

theorem length_mapIdxFrom {α β : Type} (f : Nat → α → β) (k : Nat) (l : List α) :
    (mapIdxFrom f k l).length = l.length := by
  induction l generalizing k with
  | nil => rfl
  | cons a as ih => simp [mapIdxFrom, ih]

theorem get_mapIdxFrom {α β : Type} (f : Nat → α → β) (k : Nat) (l : List α)
    (i : Nat) (h : i < l.length) :
    (mapIdxFrom f k l).get ⟨i, by rw [length_mapIdxFrom]; exact h⟩ =
      f (k + i) (l.get ⟨i, h⟩) := by
  induction l generalizing k i with
  | nil => exact absurd h (Nat.not_lt_zero i)
  | cons a as ih =>
    cases i with
    | zero => rfl
    | succ j =>
      have hj : j < as.length := Nat.lt_of_succ_lt_succ h
      have := ih (k + 1) j hj
      simpa [mapIdxFrom, Nat.add_comm, Nat.add_assoc, Nat.add_left_comm] using this

/-- The parsed input of the two search tools: `query` is required, `indexName`
defaults to `'knowledge-base'` and `topK` defaults to `5` (zod defaults). -/
structure SearchInput where
  query : String
  indexName : Option String
  topK : Option Int
deriving DecidableEq

def SearchInput.resolvedIndexName (inp : SearchInput) : String :=
  inp.indexName.getD "knowledge-base"

def SearchInput.resolvedTopK (inp : SearchInput) : Int :=
  inp.topK.getD 5

/-- The display record built by `searchDocuments` for the hit at 0-based index
`i` (lines 60-67 of `vector-store-tools.ts`). -/
structure FormattedResult where
  position : Nat
  score : Option String
  title : String
  content : String
  category : String
  metadata : Option MetaView
deriving DecidableEq

def formatHit (i : Nat) (r : QueryHit) : FormattedResult :=
  { position := i + 1
    score := r.score.map toFixed4
    title := jsOr (r.metadata.bind MetaView.title) "Untitled"
    content := jsOr r.document "No content"
    category := jsOr (r.metadata.bind MetaView.category) "No category"
    metadata := r.metadata }

/-- The success payload of `searchDocuments`. -/
structure SearchPayload where
  query : String
  resultsCount : Nat
  results : List FormattedResult
deriving DecidableEq

/-- The try-block of `searchDocumentsTool.execute`: check the credential, embed
the query, query the vector store, format.  `Except.error` is an exception
thrown by an external call; the second component is the trace of external
calls issued so far. -/
def searchDocumentsBody (w : World) (inp : SearchInput) :
    Except String (ToolOutcome SearchPayload) × List ExtCall :=
  if !(jsTruthy w.openaiApiKey) then
    (.ok (.failure "OpenAI API key is not configured"), [])
  else
    match w.embedFn inp.query with
    | .error e => (.error e, [.embedReq inp.query])
    | .ok emb =>
      match w.queryFn inp.resolvedIndexName emb inp.resolvedTopK with
      | .error e =>
        (.error e, [.embedReq inp.query, .vecQuery inp.resolvedIndexName emb inp.resolvedTopK])
      | .ok hits =>
        (.ok (.success
          { query := inp.query
            resultsCount := hits.length
            results := mapIdxFrom formatHit 0 hits }),
         [.embedReq inp.query, .vecQuery inp.resolvedIndexName emb inp.resolvedTopK])

/-- `searchDocumentsTool.execute`: the try-block wrapped in the catch-all that
converts any exception into `{success:false, error: e.message || default}`. -/
def searchDocumentsExec (w : World) (inp : SearchInput) :
    Except String (ToolOutcome SearchPayload) × List ExtCall :=
  let b := searchDocumentsBody w inp
  (tryCatch b.1 (fun e => .failure (jsNonEmptyOr e "Error while searching documents")), b.2)

/-- The parsed input of `addDocument`: `title`, `content`, `category` required,
`indexName` defaulting to `'knowledge-base'`, `tags` optional. -/
structure AddInput where
  title : String
  content : String
  category : String
  indexName : Option String
  tags : Option (List String)
deriving DecidableEq

def AddInput.resolvedIndexName (inp : AddInput) : String :=
  inp.indexName.getD "knowledge-base"

/-- The success payload of `addDocument`; `documentId` is `undefined` when the
upsert returned no ids (array destructuring of the first element). -/
structure AddPayload where
  message : String
  documentId : Option String
  title : String
  category : String
deriving DecidableEq

/-- The metadata record `addDocument` upserts for its input, with the
ingestion-time timestamp taken from the world. -/
def addDocMetadata (w : World) (inp : AddInput) : DocMetadata :=
  { title := inp.title
    content := inp.content
    category := inp.category
    tags := inp.tags.getD []
    timestamp := w.nowIso }

/-- The try-block of `addDocumentTool.execute`: check the credential, embed
`title + "\n" + content`, upsert one record, return the first assigned id. -/
def addDocumentBody (w : World) (inp : AddInput) :
    Except String (ToolOutcome AddPayload) × List ExtCall :=
  if !(jsTruthy w.openaiApiKey) then
    (.ok (.failure "OpenAI API key is not configured"), [])
  else
    match w.embedFn (inp.title ++ "\n" ++ inp.content) with
    | .error e => (.error e, [.embedReq (inp.title ++ "\n" ++ inp.content)])
    | .ok emb =>
      match w.upsertFn inp.resolvedIndexName [emb] [addDocMetadata w inp] with
      | .error e =>
        (.error e,
         [.embedReq (inp.title ++ "\n" ++ inp.content),
          .vecUpsert inp.resolvedIndexName [emb] [addDocMetadata w inp]])
      | .ok ids =>
        (.ok (.success
          { message := "Document added successfully"
            documentId := ids.head?
            title := inp.title
            category := inp.category }),
         [.embedReq (inp.title ++ "\n" ++ inp.content),
          .vecUpsert inp.resolvedIndexName [emb] [addDocMetadata w inp]])

/-- `addDocumentTool.execute` with its catch-all. -/
def addDocumentExec (w : World) (inp : AddInput) :
    Except String (ToolOutcome AddPayload) × List ExtCall :=
  let b := addDocumentBody w inp
  (tryCatch b.1 (fun e => .failure (jsNonEmptyOr e "Error while adding document")), b.2)

/-- The success payload of `listIndexes`. -/
structure ListPayload where
  count : Nat
  indexes : List String
deriving DecidableEq

/-- The try-block of `listIndexesTool.execute`. -/
def listIndexesBody (w : World) :
    Except String (ToolOutcome ListPayload) × List ExtCall :=
  match w.listIndexesFn with
  | .error e => (.error e, [.vecList])
  | .ok ixs => (.ok (.success { count := ixs.length, indexes := ixs }), [.vecList])

/-- `listIndexesTool.execute` with its catch-all. -/
def listIndexesExec (w : World) :
    Except String (ToolOutcome ListPayload) × List ExtCall :=
  let b := listIndexesBody w
  (tryCatch b.1 (fun e => .failure (jsNonEmptyOr e "Error while listing indexes")), b.2)

/-- The success payload of `getIndexStats`. -/
structure StatsPayload where
  indexName : String
  documentCount : Nat
  dimension : Nat
  metric : String
deriving DecidableEq

/-- The try-block of `getIndexStatsTool.execute`. -/
def getIndexStatsBody (w : World) (indexName : Option String) :
    Except String (ToolOutcome StatsPayload) × List ExtCall :=
  let idx := indexName.getD "knowledge-base"
  match w.describeIndexFn idx with
  | .error e => (.error e, [.vecDescribe idx])
  | .ok stats =>
    (.ok (.success
      { indexName := idx
        documentCount := stats.count
        dimension := stats.dimension
        metric := stats.metric }),
     [.vecDescribe idx])

/-- `getIndexStatsTool.execute` with its catch-all. -/
def getIndexStatsExec (w : World) (indexName : Option String) :
    Except String (ToolOutcome StatsPayload) × List ExtCall :=
  let b := getIndexStatsBody w indexName
  (tryCatch b.1 (fun e => .failure (jsNonEmptyOr e "Error while getting index statistics")), b.2)

/-- The display record built by `searchWithFilters` for the hit at 0-based
index `i` (lines 241-247 of `vector-store-tools.ts`): no defaults for title and
category, content cut to 200 units with `'...'` appended unconditionally. -/
structure SnippetResult where
  position : Nat
  score : Option String
  title : Option String
  content : String
  category : Option String
deriving DecidableEq

def formatSnippetHit (i : Nat) (r : QueryHit) : SnippetResult :=
  { position := i + 1
    score := r.score.map toFixed4
    title := r.metadata.bind MetaView.title
    content := takeFirst 200 (jsOr r.document "") ++ "..."
    category := r.metadata.bind MetaView.category }

/-- The success payload of `searchWithFilters`. -/
structure SnippetPayload where
  query : String
  resultsCount : Nat
  results : List SnippetResult
deriving DecidableEq

/-- The try-block of `searchWithFiltersTool.execute`: identical pipeline to
`searchDocuments` but with the snippet formatting. -/
def searchWithFiltersBody (w : World) (inp : SearchInput) :
    Except String (ToolOutcome SnippetPayload) × List ExtCall :=
  if !(jsTruthy w.openaiApiKey) then
    (.ok (.failure "OpenAI API key is not configured"), [])
  else
    match w.embedFn inp.query with
    | .error e => (.error e, [.embedReq inp.query])
    | .ok emb =>
      match w.queryFn inp.resolvedIndexName emb inp.resolvedTopK with
      | .error e =>
        (.error e, [.embedReq inp.query, .vecQuery inp.resolvedIndexName emb inp.resolvedTopK])
      | .ok hits =>
        (.ok (.success
          { query := inp.query
            resultsCount := hits.length
            results := mapIdxFrom formatSnippetHit 0 hits }),
         [.embedReq inp.query, .vecQuery inp.resolvedIndexName emb inp.resolvedTopK])

/-- `searchWithFiltersTool.execute` with its catch-all. -/
def searchWithFiltersExec (w : World) (inp : SearchInput) :
    Except String (ToolOutcome SnippetPayload) × List ExtCall :=
  let b := searchWithFiltersBody w inp
  (tryCatch b.1 (fun e => .failure (jsNonEmptyOr e "Error while searching")), b.2)

/-- A tool outcome is well formed when it is a success payload or a failure
carrying a nonempty error string, and no exception escaped the boundary. -/
def wellFormedOutcome {α : Type} : Except String (ToolOutcome α) → Prop
  | .ok (.success _) => True
  | .ok (.failure e) => e ≠ ""
  | .error _ => False

/-- One entry of the `sampleDocuments` constant in
`populate-knowledge-base.ts` (the script ships twelve such entries; the run is
parametric in the list so the claims hold for the shipped data). -/
structure SampleDoc where
  title : String
  content : String
  category : String
  tags : List String
deriving DecidableEq

/-- The metadata record the populate script builds for one sample document. -/
def docMetadataOf (now : String) (d : SampleDoc) : DocMetadata :=
  { title := d.title
    content := d.content
    category := d.category
    tags := d.tags
    timestamp := now }

/-- The behaviour of environment and services as seen by the populate script. -/
structure PopulateWorld where
  azureEndpoint : Option String
  azureCredential : Option String
  openaiApiKey : Option String
  createIndexResult : Except String Unit
  embedFn : String → Except String (List ℚ)
  upsertFn : List (List ℚ) → List DocMetadata → Except String (List String)
  describeIndexFn : Except String IndexStats
  nowIso : String

/-- How a run of `populateKnowledgeBase` ends: `exitConfigError` for the
missing-environment `process.exit(1)`, `completed` for the success path, and
`exitFailure` for the outer catch followed by `process.exit(1)`. -/
inductive PopulateOutcome where
  | exitConfigError
  | completed (stats : IndexStats)
  | exitFailure (message : String)
deriving DecidableEq

/-- The inner try/catch around `vectorStore.createIndex` in
`populate-knowledge-base.ts` (lines 127-140): an error whose message contains
`'already exists'` is swallowed and the run continues; any other error is
rethrown. -/
def handleCreateIndex (r : Except String Unit) : Except String Unit :=
  match r with
  | .ok _ => .ok ()
  | .error m => if jsIncludes m "already exists" then .ok () else .error m

/-- `populateKnowledgeBase` (control flow of `populate-knowledge-base.ts`):
check environment, create the index with the `'already exists'` guard, embed
every sample document, upsert them all, describe the index.  Any error reaching
the outer catch aborts the run with `exitFailure`. -/
def populateRun (w : PopulateWorld) (docs : List SampleDoc) : PopulateOutcome :=
  if !(jsTruthy w.azureEndpoint) || !(jsTruthy w.azureCredential) then .exitConfigError
  else if !(jsTruthy w.openaiApiKey) then .exitConfigError
  else
    match handleCreateIndex w.createIndexResult with
    | .error m => .exitFailure m
    | .ok _ =>
      match docs.mapM (fun d => w.embedFn (d.title ++ "\n" ++ d.content)) with
      | .error m => .exitFailure m
      | .ok embeddings =>
        match w.upsertFn embeddings (docs.map (docMetadataOf w.nowIso)) with
        | .error m => .exitFailure m
        | .ok _ =>
          match w.describeIndexFn with
          | .error m => .exitFailure m
          | .ok stats => .completed stats

/-- Modelled from the spec: the semantic-recall window expansion of the memory
library configured in `knowledge-memory-agent.ts` (options `lastMessages: 20`,
`semanticRecall: {topK: 5, messageRange: 2, scope: resource}`); the algorithm
itself is not part of this repository's sources.  Messages are identified with
their 0-based position in the conversation of length `n`; `expandHit n range p`
is the symmetric window of existing positions at distance at most `range`
around the hit `p`. -/
def expandHit (n range p : Nat) : List Nat :=
  (List.range n).filter (fun q => p ≤ q + range && q ≤ p + range)

/-- Modelled from the spec: union of the expanded windows of all hits,
collapsed by id and ordered by original conversation order. -/
def recallWindow (n range : Nat) (hits : List Nat) : List Nat :=
  let expanded := hits.flatMap (expandHit n range)
  let deduped := expanded.dedup
  (List.range n).filter (fun q => deduped.contains q)

/-- Modelled from the spec: the `lastMessages` recency window — the `lastN`
most recent positions of the conversation, always included. -/
def recencyWindow (n lastN : Nat) : List Nat :=
  (List.range n).drop (n - lastN)

/-- Modelled from the spec: the context emitted for injection — the ordered
recall window plus (additively) the always-included recency window. -/
def injectedContext (n lastN range : Nat) (hits : List Nat) : List Nat :=
  recallWindow n range hits ++ recencyWindow n lastN

theorem jsNonEmptyOr_ne_empty (e d : String) (hd : d ≠ "") : jsNonEmptyOr e d ≠ "" := by
  unfold jsNonEmptyOr
  split
  · exact hd
  · assumption

theorem length_takeFirst (n : Nat) (s : String) : (takeFirst n s).length = min n s.length := by
  show (s.data.take n).length = min n s.data.length
  simp

theorem get?_mapIdxFrom {α β : Type} (f : Nat → α → β) (k : Nat) (l : List α) (i : Nat) :
    (mapIdxFrom f k l).get? i = (l.get? i).map (f (k + i)) := by
  induction l generalizing k i with
  | nil => simp [mapIdxFrom]
  | cons a as ih =>
    cases i with
    | zero => simp [mapIdxFrom]
    | succ j =>
      simpa [mapIdxFrom, Nat.add_comm, Nat.add_assoc, Nat.add_left_comm] using ih (k + 1) j

/-- A query hit with two units of content, no score and no metadata. -/
def shortHit : QueryHit := { score := none, document := some "hi", metadata := none }

/-- A query hit whose content is 250 units long. -/
def longHit : QueryHit :=
  { score := none, document := some (String.mk (List.replicate 250 'a')), metadata := none }

/-- A query hit with every payload field present. -/
def fullHit : QueryHit :=
  { score := none
    document := some "Vector databases store embeddings"
    metadata := some { title := some "Vector Databases", category := some "technology" } }

/-- A world in which every external call succeeds and the vector query returns
`hits`. -/
def okWorldWith (hits : List QueryHit) : World :=
  { openaiApiKey := some "sk-test"
    embedFn := fun _ => .ok [1]
    queryFn := fun _ _ _ => .ok hits
    upsertFn := fun _ _ _ => .ok ["doc-1"]
    listIndexesFn := .ok ["knowledge-base"]
    describeIndexFn := fun _ => .ok { count := 1, dimension := 1536, metric := "cosine" }
    nowIso := "2026-01-01T00:00:00.000Z" }

/-- The ok-world with the OpenAI credential removed. -/
def noKeyWorld : World := { okWorldWith [] with openaiApiKey := none }

/-- A search input with both defaults left to apply. -/
def qInput : SearchInput := { query := "q", indexName := none, topK := none }

/-- C1: counterexample — `searchWithFilters` does not return short content
unmodified: for a hit whose content is `"hi"` (2 units, well under 200) the
returned content is `"hi..."`, because the code appends the ellipsis
unconditionally (`(r.document || '').substring(0, 200) + '...'`). -/
theorem c1_counterexample :
    (searchWithFiltersExec (okWorldWith [shortHit]) qInput).1 =
      .ok (.success
        { query := "q"
          resultsCount := 1
          results := [{ position := 1, score := none, title := none,
                        content := "hi...", category := none }] }) ∧
    (jsOr shortHit.document "").length ≤ 200 ∧
    (formatSnippetHit 0 shortHit).content ≠ jsOr shortHit.document "" := by
  refine ⟨by decide, by decide, by decide⟩

/-- C1 (amended): every hit of `searchWithFilters` has its content replaced by
its first `min 200 (length)` units with the ellipsis marker appended
unconditionally — content longer than 200 units is truncated to exactly 200
units plus the ellipsis, and content of 200 units or fewer is kept whole but
still receives the trailing ellipsis. -/
theorem c1_snippet_amended (w : World) (inp : SearchInput) (emb : List ℚ)
    (hits : List QueryHit) (i : Nat) (r : QueryHit)
    (hkey : jsTruthy w.openaiApiKey = true)
    (hemb : w.embedFn inp.query = .ok emb)
    (hq : w.queryFn inp.resolvedIndexName emb inp.resolvedTopK = .ok hits) :
    (searchWithFiltersExec w inp).1 =
      .ok (.success
        { query := inp.query
          resultsCount := hits.length
          results := mapIdxFrom formatSnippetHit 0 hits }) ∧
    (formatSnippetHit i r).content = takeFirst 200 (jsOr r.document "") ++ "..." ∧
    (takeFirst 200 (jsOr r.document "")).length = min 200 (jsOr r.document "").length := by
  refine ⟨?_, rfl, length_takeFirst 200 (jsOr r.document "")⟩
  unfold searchWithFiltersExec searchWithFiltersBody
  simp [hkey, hemb, hq, tryCatch_ok]

theorem c1_snippet_amended_witness :
    jsTruthy (okWorldWith [longHit]).openaiApiKey = true ∧
    ((searchWithFiltersExec (okWorldWith [longHit]) qInput).1 =
      .ok (.success
        { query := "q"
          resultsCount := 1
          results := mapIdxFrom formatSnippetHit 0 [longHit] }) ∧
    (formatSnippetHit 0 longHit).content = takeFirst 200 (jsOr longHit.document "") ++ "..." ∧
    (takeFirst 200 (jsOr longHit.document "")).length = min 200 (jsOr longHit.document "").length) :=
  ⟨by decide, c1_snippet_amended (okWorldWith [longHit]) qInput [1] [longHit] 0 longHit
    (by decide) rfl rfl⟩

/-- C2: counterexample — the search tools perform no input validation: with an
empty query and a non-positive `topK` both the embedding request and the
vector-store query are still issued (the trace is nonempty), so the input is
not rejected before I/O. -/
theorem c2_counterexample :
    (searchDocumentsExec (okWorldWith []) { query := "", indexName := none, topK := some 0 }).2 =
      [.embedReq "", .vecQuery "knowledge-base" [1] 0] ∧
    (searchWithFiltersExec (okWorldWith []) { query := "", indexName := none, topK := some (-3) }).2 =
      [.embedReq "", .vecQuery "knowledge-base" [1] (-3)] := by
  refine ⟨by decide, by decide⟩

/-- C2 (amended): neither `searchDocuments` nor `searchWithFilters` validates
`topK` or the query text: whenever the credential is configured the embedding
request is the first external call for every query (including the empty one),
and once embedding succeeds the vector-store query is issued with the given
`topK` unchanged (including non-positive values).  Only the missing-credential
check precedes I/O. -/
theorem c2_no_validation_amended (w : World) (inp : SearchInput) (emb : List ℚ)
    (hkey : jsTruthy w.openaiApiKey = true)
    (hemb : w.embedFn inp.query = .ok emb) :
    (searchDocumentsExec w inp).2.head? = some (.embedReq inp.query) ∧
    (searchWithFiltersExec w inp).2.head? = some (.embedReq inp.query) ∧
    ExtCall.vecQuery inp.resolvedIndexName emb inp.resolvedTopK ∈ (searchDocumentsExec w inp).2 ∧
    ExtCall.vecQuery inp.resolvedIndexName emb inp.resolvedTopK ∈ (searchWithFiltersExec w inp).2 := by
  unfold searchDocumentsExec searchDocumentsBody searchWithFiltersExec searchWithFiltersBody
  cases hq : w.queryFn inp.resolvedIndexName emb inp.resolvedTopK with
  | error e => simp [hkey, hemb, hq]
  | ok hits => simp [hkey, hemb, hq]

theorem c2_no_validation_amended_witness :
    jsTruthy (okWorldWith []).openaiApiKey = true ∧
    ((searchDocumentsExec (okWorldWith []) { query := "", indexName := none, topK := some 0 }).2.head? =
      some (.embedReq "") ∧
    (searchWithFiltersExec (okWorldWith []) { query := "", indexName := none, topK := some 0 }).2.head? =
      some (.embedReq "") ∧
    ExtCall.vecQuery "knowledge-base" [1] 0 ∈
      (searchDocumentsExec (okWorldWith []) { query := "", indexName := none, topK := some 0 }).2 ∧
    ExtCall.vecQuery "knowledge-base" [1] 0 ∈
      (searchWithFiltersExec (okWorldWith []) { query := "", indexName := none, topK := some 0 }).2) :=
  ⟨by decide, c2_no_validation_amended (okWorldWith [])
    { query := "", indexName := none, topK := some 0 } [1] (by decide) rfl⟩

/-- C3: for every behaviour of the external services and every input, each of
the five tools returns a structured outcome — a success payload or a failure
with a nonempty error string — and no exception escapes the tool boundary
(the catch-all converts every thrown error into a failure result). -/
theorem c3_structured_results (w : World) (s : SearchInput) (a : AddInput)
    (g : Option String) :
    wellFormedOutcome (searchDocumentsExec w s).1 ∧
    wellFormedOutcome (addDocumentExec w a).1 ∧
    wellFormedOutcome (listIndexesExec w).1 ∧
    wellFormedOutcome (getIndexStatsExec w g).1 ∧
    wellFormedOutcome (searchWithFiltersExec w s).1 := by
  refine ⟨?_, ?_, ?_, ?_, ?_⟩
  · unfold searchDocumentsExec searchDocumentsBody
    cases hk : !(jsTruthy w.openaiApiKey) with
    | true => simp [hk, tryCatch_ok, wellFormedOutcome]
    | false =>
      cases he : w.embedFn s.query with
      | error e =>
        simp only [hk, he, Bool.false_eq_true, if_false, tryCatch_error]
        exact jsNonEmptyOr_ne_empty e _ (by decide)
      | ok emb =>
        cases hq : w.queryFn s.resolvedIndexName emb s.resolvedTopK with
        | error e =>
          simp only [hk, he, hq, Bool.false_eq_true, if_false, tryCatch_error]
          exact jsNonEmptyOr_ne_empty e _ (by decide)
        | ok hits => simp [hk, he, hq, tryCatch_ok, wellFormedOutcome]
  · unfold addDocumentExec addDocumentBody
    cases hk : !(jsTruthy w.openaiApiKey) with
    | true => simp [hk, tryCatch_ok, wellFormedOutcome]
    | false =>
      cases he : w.embedFn (a.title ++ "\n" ++ a.content) with
      | error e =>
        simp only [hk, he, Bool.false_eq_true, if_false, tryCatch_error]
        exact jsNonEmptyOr_ne_empty e _ (by decide)
      | ok emb =>
        cases hu : w.upsertFn a.resolvedIndexName [emb] [addDocMetadata w a] with
        | error e =>
          simp only [hk, he, hu, Bool.false_eq_true, if_false, tryCatch_error]
          exact jsNonEmptyOr_ne_empty e _ (by decide)
        | ok ids => simp [hk, he, hu, tryCatch_ok, wellFormedOutcome]
  · unfold listIndexesExec listIndexesBody
    cases hl : w.listIndexesFn with
    | error e =>
      simp only [hl, tryCatch_error]
      exact jsNonEmptyOr_ne_empty e _ (by decide)
    | ok ixs => simp [hl, tryCatch_ok, wellFormedOutcome]
  · unfold getIndexStatsExec getIndexStatsBody
    cases hd : w.describeIndexFn (g.getD "knowledge-base") with
    | error e =>
      simp only [hd, tryCatch_error]
      exact jsNonEmptyOr_ne_empty e _ (by decide)
    | ok stats => simp [hd, tryCatch_ok, wellFormedOutcome]
  · unfold searchWithFiltersExec searchWithFiltersBody
    cases hk : !(jsTruthy w.openaiApiKey) with
    | true => simp [hk, tryCatch_ok, wellFormedOutcome]
    | false =>
      cases he : w.embedFn s.query with
      | error e =>
        simp only [hk, he, Bool.false_eq_true, if_false, tryCatch_error]
        exact jsNonEmptyOr_ne_empty e _ (by decide)
      | ok emb =>
        cases hq : w.queryFn s.resolvedIndexName emb s.resolvedTopK with
        | error e =>
          simp only [hk, he, hq, Bool.false_eq_true, if_false, tryCatch_error]
          exact jsNonEmptyOr_ne_empty e _ (by decide)
        | ok hits => simp [hk, he, hq, tryCatch_ok, wellFormedOutcome]

/-- C4: with the credential configured, `addDocument` embeds the concatenation
`title + "\n" + content`, upserts exactly one vector record whose payload holds
the title, content, category, the tags (defaulted to the empty list) and the
ingestion-time timestamp, and returns as `documentId` the first id assigned by
the upsert. -/
theorem c4_addDocument_pipeline (w : World) (inp : AddInput) (emb : List ℚ)
    (ids : List String)
    (hkey : jsTruthy w.openaiApiKey = true)
    (hemb : w.embedFn (inp.title ++ "\n" ++ inp.content) = .ok emb)
    (hup : w.upsertFn inp.resolvedIndexName [emb] [addDocMetadata w inp] = .ok ids) :
    (addDocumentExec w inp).1 =
      .ok (.success
        { message := "Document added successfully"
          documentId := ids.head?
          title := inp.title
          category := inp.category }) ∧
    (addDocumentExec w inp).2 =
      [.embedReq (inp.title ++ "\n" ++ inp.content),
       .vecUpsert inp.resolvedIndexName [emb] [addDocMetadata w inp]] ∧
    addDocMetadata w inp =
      { title := inp.title
        content := inp.content
        category := inp.category
        tags := inp.tags.getD []
        timestamp := w.nowIso } := by
  unfold addDocumentExec addDocumentBody
  refine ⟨?_, ?_, rfl⟩ <;> simp [hkey, hemb, hup, tryCatch_ok]

theorem c4_addDocument_pipeline_witness :
    jsTruthy (okWorldWith []).openaiApiKey = true ∧
    ((addDocumentExec (okWorldWith [])
        { title := "T", content := "C", category := "technology",
          indexName := none, tags := none }).1 =
      .ok (.success
        { message := "Document added successfully"
          documentId := (["doc-1"] : List String).head?
          title := "T"
          category := "technology" }) ∧
    (addDocumentExec (okWorldWith [])
        { title := "T", content := "C", category := "technology",
          indexName := none, tags := none }).2 =
      [.embedReq ("T" ++ "\n" ++ "C"),
       .vecUpsert "knowledge-base" [[1]]
         [addDocMetadata (okWorldWith [])
           { title := "T", content := "C", category := "technology",
             indexName := none, tags := none }]] ∧
    addDocMetadata (okWorldWith [])
        { title := "T", content := "C", category := "technology",
          indexName := none, tags := none } =
      { title := "T"
        content := "C"
        category := "technology"
        tags := ([] : List String)
        timestamp := (okWorldWith []).nowIso }) :=
  ⟨by decide, c4_addDocument_pipeline (okWorldWith [])
    { title := "T", content := "C", category := "technology",
      indexName := none, tags := none } [1] ["doc-1"] (by decide) rfl rfl⟩

/-- C6: if the embedding-provider credential is absent (or empty), the three
embedding-backed tools return the structured failure
`{success:false, error:'OpenAI API key is not configured'}` and issue no
external call at all (empty trace): fail fast before any network I/O. -/
theorem c6_missing_key_fail_fast (w : World) (s : SearchInput) (a : AddInput)
    (hkey : jsTruthy w.openaiApiKey = false) :
    (searchDocumentsExec w s).1 = .ok (.failure "OpenAI API key is not configured") ∧
    (searchDocumentsExec w s).2 = [] ∧
    (addDocumentExec w a).1 = .ok (.failure "OpenAI API key is not configured") ∧
    (addDocumentExec w a).2 = [] ∧
    (searchWithFiltersExec w s).1 = .ok (.failure "OpenAI API key is not configured") ∧
    (searchWithFiltersExec w s).2 = [] := by
  unfold searchDocumentsExec searchDocumentsBody addDocumentExec addDocumentBody
    searchWithFiltersExec searchWithFiltersBody
  simp [hkey, tryCatch_ok]

theorem c6_missing_key_fail_fast_witness :
    jsTruthy noKeyWorld.openaiApiKey = false ∧
    ((searchDocumentsExec noKeyWorld qInput).1 =
        .ok (.failure "OpenAI API key is not configured") ∧
    (searchDocumentsExec noKeyWorld qInput).2 = [] ∧
    (addDocumentExec noKeyWorld
        { title := "T", content := "C", category := "science",
          indexName := none, tags := none }).1 =
      .ok (.failure "OpenAI API key is not configured") ∧
    (addDocumentExec noKeyWorld
        { title := "T", content := "C", category := "science",
          indexName := none, tags := none }).2 = [] ∧
    (searchWithFiltersExec noKeyWorld qInput).1 =
      .ok (.failure "OpenAI API key is not configured") ∧
    (searchWithFiltersExec noKeyWorld qInput).2 = []) :=
  ⟨by decide, c6_missing_key_fail_fast noKeyWorld qInput
    { title := "T", content := "C", category := "science",
      indexName := none, tags := none } (by decide)⟩

/-- C5: with the credential configured, `searchDocuments` embeds the query,
issues exactly one vector query with `topK` defaulting to 5 and the index name
defaulting to `'knowledge-base'`, and maps the `i`-th hit of the service's
result list (in the service's own order, without re-sorting) to a display
record whose `position` is the 1-based rank `i + 1` and which carries the
score, title, content, category and the raw metadata of that hit. -/
theorem c5_search_display_mapping (w : World) (inp : SearchInput) (emb : List ℚ)
    (hits : List QueryHit) (i : Nat) (r : QueryHit)
    (hkey : jsTruthy w.openaiApiKey = true)
    (hemb : w.embedFn inp.query = .ok emb)
    (hq : w.queryFn inp.resolvedIndexName emb inp.resolvedTopK = .ok hits)
    (hr : hits.get? i = some r) :
    (searchDocumentsExec w inp).1 =
      .ok (.success
        { query := inp.query
          resultsCount := hits.length
          results := mapIdxFrom formatHit 0 hits }) ∧
    (searchDocumentsExec w inp).2 =
      [.embedReq inp.query,
       .vecQuery (inp.indexName.getD "knowledge-base") emb (inp.topK.getD 5)] ∧
    (mapIdxFrom formatHit 0 hits).get? i = some (formatHit i r) ∧
    formatHit i r =
      { position := i + 1
        score := r.score.map toFixed4
        title := jsOr (r.metadata.bind MetaView.title) "Untitled"
        content := jsOr r.document "No content"
        category := jsOr (r.metadata.bind MetaView.category) "No category"
        metadata := r.metadata } := by
  refine ⟨?_, ?_, ?_, rfl⟩
  · unfold searchDocumentsExec searchDocumentsBody
    simp [hkey, hemb, hq, tryCatch_ok]
  · unfold searchDocumentsExec searchDocumentsBody
    simp only [SearchInput.resolvedIndexName, SearchInput.resolvedTopK] at hq
    simp [hkey, hemb, hq, SearchInput.resolvedIndexName, SearchInput.resolvedTopK]
  · rw [get?_mapIdxFrom, hr]
    simp

theorem c5_search_display_mapping_witness :
    jsTruthy (okWorldWith [fullHit]).openaiApiKey = true ∧
    (okWorldWith [fullHit]).embedFn "q" = .ok [1] ∧
    ([fullHit] : List QueryHit).get? 0 = some fullHit ∧
    ((searchDocumentsExec (okWorldWith [fullHit]) qInput).1 =
      .ok (.success
        { query := "q"
          resultsCount := 1
          results := mapIdxFrom formatHit 0 [fullHit] }) ∧
    (searchDocumentsExec (okWorldWith [fullHit]) qInput).2 =
      [.embedReq "q", .vecQuery "knowledge-base" [1] 5] ∧
    (mapIdxFrom formatHit 0 [fullHit]).get? 0 = some (formatHit 0 fullHit) ∧
    formatHit 0 fullHit =
      { position := 1
        score := fullHit.score.map toFixed4
        title := jsOr (fullHit.metadata.bind MetaView.title) "Untitled"
        content := jsOr fullHit.document "No content"
        category := jsOr (fullHit.metadata.bind MetaView.category) "No category"
        metadata := fullHit.metadata }) :=
  ⟨by decide, rfl, rfl,
   c5_search_display_mapping (okWorldWith [fullHit]) qInput [1] [fullHit] 0 fullHit
     (by decide) rfl rfl rfl⟩

/-- C9: the `searchDocuments` display mapping substitutes the defaults
`'Untitled'`, `'No content'` and `'No category'` for a hit whose payload lacks
the title, document content or category respectively, and still produces a
complete display record with its 1-based position. -/
theorem c9_missing_field_defaults (i : Nat) (r : QueryHit) :
    (r.metadata.bind MetaView.title = none → (formatHit i r).title = "Untitled") ∧
    (r.document = none → (formatHit i r).content = "No content") ∧
    (r.metadata.bind MetaView.category = none → (formatHit i r).category = "No category") ∧
    (formatHit i r).position = i + 1 := by
  refine ⟨?_, ?_, ?_, rfl⟩
  · intro h; simp [formatHit, h, jsOr]
  · intro h; simp [formatHit, h, jsOr]
  · intro h; simp [formatHit, h, jsOr]

theorem c9_missing_field_defaults_witness :
    (formatHit 0 { score := none, document := none, metadata := none }).title = "Untitled" ∧
    (formatHit 0 { score := none, document := none, metadata := none }).content = "No content" ∧
    (formatHit 0 { score := none, document := none, metadata := none }).category = "No category" ∧
    (formatHit 0 { score := none, document := none, metadata := none }).position = 1 :=
  ⟨(c9_missing_field_defaults 0 _).1 rfl,
   (c9_missing_field_defaults 0 _).2.1 rfl,
   (c9_missing_field_defaults 0 _).2.2.1 rfl,
   (c9_missing_field_defaults 0 _).2.2.2⟩

/-- C10: on every successful run of `searchDocuments` or `searchWithFilters`,
the reported `resultsCount` equals the length of the returned `results` list,
which equals the number of hits the vector query returned — the formatting
step neither drops nor adds entries. -/
theorem c10_results_count (w : World) (inp : SearchInput) (emb : List ℚ)
    (hits : List QueryHit)
    (hkey : jsTruthy w.openaiApiKey = true)
    (hemb : w.embedFn inp.query = .ok emb)
    (hq : w.queryFn inp.resolvedIndexName emb inp.resolvedTopK = .ok hits) :
    (searchDocumentsExec w inp).1 =
      .ok (.success
        { query := inp.query
          resultsCount := hits.length
          results := mapIdxFrom formatHit 0 hits }) ∧
    (mapIdxFrom formatHit 0 hits).length = hits.length ∧
    (searchWithFiltersExec w inp).1 =
      .ok (.success
        { query := inp.query
          resultsCount := hits.length
          results := mapIdxFrom formatSnippetHit 0 hits }) ∧
    (mapIdxFrom formatSnippetHit 0 hits).length = hits.length := by
  refine ⟨?_, length_mapIdxFrom formatHit 0 hits, ?_, length_mapIdxFrom formatSnippetHit 0 hits⟩
  · unfold searchDocumentsExec searchDocumentsBody
    simp [hkey, hemb, hq, tryCatch_ok]
  · unfold searchWithFiltersExec searchWithFiltersBody
    simp [hkey, hemb, hq, tryCatch_ok]

theorem c10_results_count_witness :
    jsTruthy (okWorldWith [fullHit, shortHit]).openaiApiKey = true ∧
    ((searchDocumentsExec (okWorldWith [fullHit, shortHit]) qInput).1 =
      .ok (.success
        { query := "q"
          resultsCount := 2
          results := mapIdxFrom formatHit 0 [fullHit, shortHit] }) ∧
    (mapIdxFrom formatHit 0 [fullHit, shortHit]).length = 2 ∧
    (searchWithFiltersExec (okWorldWith [fullHit, shortHit]) qInput).1 =
      .ok (.success
        { query := "q"
          resultsCount := 2
          results := mapIdxFrom formatSnippetHit 0 [fullHit, shortHit] }) ∧
    (mapIdxFrom formatSnippetHit 0 [fullHit, shortHit]).length = 2) :=
  ⟨by decide, c10_results_count (okWorldWith [fullHit, shortHit]) qInput [1]
    [fullHit, shortHit] (by decide) rfl rfl⟩

/-- A populate-script world with all environment variables set, successful
embedding/upsert/describe calls, and createIndex behaviour `r`. -/
def popWorldWith (r : Except String Unit) : PopulateWorld :=
  { azureEndpoint := some "https://demo.search.windows.net"
    azureCredential := some "azure-key"
    openaiApiKey := some "sk-test"
    createIndexResult := r
    embedFn := fun _ => .ok [1]
    upsertFn := fun _ _ => .ok ["doc-1"]
    describeIndexFn := .ok { count := 12, dimension := 1536, metric := "cosine" }
    nowIso := "2026-01-01T00:00:00.000Z" }

/-- C7: in `populateKnowledgeBase`, a `createIndex` failure whose message
contains `'already exists'` is caught and the run continues exactly as if
`createIndex` had succeeded; any other `createIndex` failure is rethrown to the
outer catch and aborts the ingestion run. -/
theorem c7_createIndex_guard (w : PopulateWorld) (docs : List SampleDoc) (m : String)
    (henv1 : jsTruthy w.azureEndpoint = true)
    (henv2 : jsTruthy w.azureCredential = true)
    (henv3 : jsTruthy w.openaiApiKey = true)
    (herr : w.createIndexResult = .error m) :
    (jsIncludes m "already exists" = true →
      populateRun w docs = populateRun { w with createIndexResult := .ok () } docs) ∧
    (jsIncludes m "already exists" = false → populateRun w docs = .exitFailure m) := by
  constructor
  · intro hinc
    unfold populateRun handleCreateIndex
    simp [henv1, henv2, henv3, herr, hinc]
  · intro hinc
    unfold populateRun handleCreateIndex
    simp [henv1, henv2, henv3, herr, hinc]

theorem c7_createIndex_guard_witness :
    jsTruthy (popWorldWith (.error "Index knowledge-base already exists")).azureEndpoint = true ∧
    jsIncludes "Index knowledge-base already exists" "already exists" = true ∧
    jsIncludes "service unavailable" "already exists" = false ∧
    populateRun (popWorldWith (.error "Index knowledge-base already exists")) [] =
      populateRun
        { popWorldWith (.error "Index knowledge-base already exists") with
            createIndexResult := .ok () } [] ∧
    populateRun (popWorldWith (.error "service unavailable")) [] =
      .exitFailure "service unavailable" :=
  ⟨by decide, by decide, by decide,
   (c7_createIndex_guard (popWorldWith (.error "Index knowledge-base already exists")) []
     "Index knowledge-base already exists" (by decide) (by decide) (by decide) rfl).1
     (by decide),
   (c7_createIndex_guard (popWorldWith (.error "service unavailable")) []
     "service unavailable" (by decide) (by decide) (by decide) rfl).2 (by decide)⟩

/-- C8: (modelled from the spec) with `messageRange = 2` and a single
similarity hit at conversation position `p` of an `n`-message thread, the
recall window is exactly the existing positions `{p-2, ..., p+2}` in original
conversation order, without duplicates, and the emitted context is the recall
window plus (additively) the always-included `lastMessages = 20` recency
window. -/
theorem c8_recall_window (n p : Nat) (_hp : p < n) :
    recallWindow n 2 [p] =
      (List.range n).filter (fun q => decide (p ≤ q + 2) && decide (q ≤ p + 2)) ∧
    (recallWindow n 2 [p]).Nodup ∧
    List.Pairwise (· < ·) (recallWindow n 2 [p]) ∧
    injectedContext n 20 2 [p] = recallWindow n 2 [p] ++ recencyWindow n 20 := by
  have hnodup : (recallWindow n 2 [p]).Nodup :=
    List.Nodup.filter _ (List.nodup_range n)
  have hpair : List.Pairwise (· < ·) (recallWindow n 2 [p]) :=
    List.Pairwise.sublist (List.filter_sublist _) (List.pairwise_lt_range n)
  refine ⟨?_, hnodup, hpair, rfl⟩
  unfold recallWindow
  refine List.filter_congr ?_
  intro q hq
  have hqn : q < n := List.mem_range.mp hq
  simp [List.contains, List.elem_eq_mem, List.mem_dedup, List.mem_flatMap,
    expandHit, List.mem_filter, List.mem_range, hqn]

theorem c8_recall_window_witness :
    9 < 12 ∧
    (recallWindow 12 2 [9] =
      (List.range 12).filter (fun q => decide (9 ≤ q + 2) && decide (q ≤ 9 + 2)) ∧
    (recallWindow 12 2 [9]).Nodup ∧
    List.Pairwise (· < ·) (recallWindow 12 2 [9]) ∧
    injectedContext 12 20 2 [9] = recallWindow 12 2 [9] ++ recencyWindow 12 20) :=
  ⟨by decide, c8_recall_window 12 9 (by decide)⟩

/-- Sanity example from the spec: a hit at message position 9 (the 10th
message) in a 12-message thread yields the window of positions 7 through 11
(messages 8 through 12), and the recency window with `lastMessages = 20`
covers the whole 12-message thread. -/
example : recallWindow 12 2 [9] = [7, 8, 9, 10, 11] := by decide

example : recencyWindow 12 20 = List.range 12 := by decide
